import Mathlib

/-!
Shallow embedding of the LegoWorld V3 Tizen client (`src/tizen/js/main.js`).

The source is a single event-driven script holding mutable state
(`currentScene`, `currentView`, `photos`, `lastPhotoCount`,
`focusedPhotoIndex`, `sceneIndex`).  We embed that state as the structure
`AppState` and each event handler as a pure function on it.  DOM class
toggling and asset loading have no effect on the embedded state and are
dropped; externally visible actions (starting or stopping video playback,
initiating a photo fetch) are returned as `Effect` values.  The two
asynchronous fetches (`loadPhotos` for `GET /api/photos`, the poll body for
`GET /api/state`) are embedded as completion functions: the function takes
the observed `FetchOutcome` and the state at resumption time and returns the
updated state together with the observable outcome (indicator shown, error
logged, follow-up load triggered).
-/

namespace LegoWorld

/-- The four values of the `currentView` variable (main.js line 21). -/
inductive View
  | dashboard
  | video
  | photos
  | fullscreen
deriving DecidableEq, Repr

/-- Scene identifiers: the keys of the `sceneAssets` object (main.js lines 30-39). -/
inductive SceneId
  | SmartBrick1
  | SmartBrick2
  | City
  | Firetruck
  | Universe
  | Space
  | Game
  | MyPhotos
deriving DecidableEq, Repr

/-- One entry of the `sceneAssets` registry: background image, optional video, title. -/
structure SceneAsset where
  img : Option String
  video : Option String
  title : String
deriving DecidableEq, Repr

/-- The `sceneAssets` object (main.js lines 30-39). -/
def sceneAssets : SceneId → SceneAsset
  | .SmartBrick1 => ⟨some "assets/smartbrick1.jpg", none, "SmartBrick"⟩
  | .SmartBrick2 => ⟨some "assets/smartbrick2.jpg", none, "SmartBrick 2"⟩
  | .City => ⟨some "assets/city1.jpg", some "assets/city.mp4", "City"⟩
  | .Firetruck => ⟨some "assets/firetruck.jpg", some "assets/firetruck.mp4", "Fire Truck"⟩
  | .Universe => ⟨some "assets/Lego universe.jpg", some "assets/Lego universe starwars.mp4", "Universe"⟩
  | .Space => ⟨some "assets/space.png", some "assets/space.mp4", "Space"⟩
  | .Game => ⟨some "assets/game.png", none, "Game"⟩
  | .MyPhotos => ⟨none, none, "My Lego"⟩

/-- The `sceneOrder` array: the fixed circular traversal order (main.js line 42). -/
def sceneOrder : List SceneId :=
  [.SmartBrick1, .SmartBrick2, .City, .Firetruck, .Universe, .Space, .Game, .MyPhotos]

/-- One photo as served by `GET /api/photos`: filename, optional caption,
creation time in epoch seconds (spec section 6; consumed in `renderPhotoGrid`). -/
structure Photo where
  filename : String
  caption : Option String
  created_at : Nat
deriving DecidableEq, Repr

/-- The script-level mutable state of main.js (lines 20-24 and 43). -/
structure AppState where
  currentScene : SceneId
  currentView : View
  photos : List Photo
  lastPhotoCount : Nat
  focusedPhotoIndex : Nat
  sceneIndex : Nat
deriving DecidableEq, Repr

/-- State after the initialisation at main.js lines 20-24, 43 and 46:
`updateScene(sceneOrder[0])` runs on `SmartBrick1`, which only renders. -/
def initState : AppState :=
  { currentScene := .SmartBrick1
    currentView := .dashboard
    photos := []
    lastPhotoCount := 0
    focusedPhotoIndex := 0
    sceneIndex := 0 }

/-- Externally visible actions emitted by the handlers: starting video playback
with a source, stopping playback, and initiating a `loadPhotos()` fetch. -/
inductive Effect
  | playVideo (src : String)
  | stopVideo
  | fetchPhotos
deriving DecidableEq, Repr

/-- `showPhotoGallery` (main.js lines 232-245): switches DOM panes, sets
`currentView = 'photos'`, resets `focusedPhotoIndex` to 0 and calls `loadPhotos()`. -/
def showPhotoGallery (s : AppState) : AppState × List Effect :=
  ({ s with currentView := .photos, focusedPhotoIndex := 0 }, [.fetchPhotos])

/-- `hidePhotoGallery` (main.js lines 247-259): guarded no-op unless the view
is `photos`; otherwise returns to the dashboard view. -/
def hidePhotoGallery (s : AppState) : AppState :=
  if s.currentView ≠ .photos then s
  else { s with currentView := .dashboard }

/-- `updateScene` (main.js lines 50-65): records the new `currentScene`; for
`MyPhotos` it shows the photo gallery, otherwise it only renders background
image and title (no embedded-state change). -/
def updateScene (sceneName : SceneId) (s : AppState) : AppState × List Effect :=
  let s1 := { s with currentScene := sceneName }
  if sceneName = .MyPhotos then showPhotoGallery s1
  else (s1, [])

/-- `navigateUp` (main.js lines 67-76): allowed from dashboard or photo
gallery; from the gallery it first hides it; then decrements `sceneIndex`
circularly and applies `updateScene`. -/
def navigateUp (s : AppState) : AppState × List Effect :=
  if s.currentView = .dashboard ∨ s.currentView = .photos then
    let s1 := if s.currentView = .photos then hidePhotoGallery s else s
    let idx := (s1.sceneIndex + sceneOrder.length - 1) % sceneOrder.length
    updateScene (sceneOrder.getD idx .SmartBrick1) { s1 with sceneIndex := idx }
  else (s, [])

/-- `navigateDown` (main.js lines 78-87): allowed from dashboard or photo
gallery; from the gallery it first hides it; then increments `sceneIndex`
circularly and applies `updateScene`. -/
def navigateDown (s : AppState) : AppState × List Effect :=
  if s.currentView = .dashboard ∨ s.currentView = .photos then
    let s1 := if s.currentView = .photos then hidePhotoGallery s else s
    let idx := (s1.sceneIndex + 1) % sceneOrder.length
    updateScene (sceneOrder.getD idx .SmartBrick1) { s1 with sceneIndex := idx }
  else (s, [])

/-- `playVideo` (main.js lines 115-133): no-op when the current scene has no
video; otherwise switches to the video view and starts playback. -/
def playVideo (s : AppState) : AppState × List Effect :=
  match (sceneAssets s.currentScene).video with
  | none => (s, [])
  | some v => ({ s with currentView := .video }, [.playVideo v])

/-- `stopVideo` (main.js lines 135-147): pauses playback and returns to the
dashboard view. -/
def stopVideo (s : AppState) : AppState × List Effect :=
  ({ s with currentView := .dashboard }, [.stopVideo])

/-- `handleEnter` (main.js lines 89-102): in the dashboard, plays the scene's
video if it has one, else opens the gallery if the scene is `MyPhotos`; in the
photo view it calls `loadPhotos()` (manual refresh); otherwise no-op. -/
def handleEnter (s : AppState) : AppState × List Effect :=
  if s.currentView = .dashboard then
    if (sceneAssets s.currentScene).video.isSome then playVideo s
    else if s.currentScene = .MyPhotos then showPhotoGallery s
    else (s, [])
  else if s.currentView = .photos then (s, [.fetchPhotos])
  else (s, [])

/-- `showFullscreenPhoto` (main.js lines 270-283): no-op on a missing photo,
otherwise switches to fullscreen view.  (Defined in the source but never
called by any handler.) -/
def showFullscreenPhoto (photo : Option Photo) (s : AppState) : AppState × List Effect :=
  match photo with
  | none => (s, [])
  | some _ => ({ s with currentView := .fullscreen }, [])

/-- `hideFullscreenPhoto` (main.js lines 285-295): returns from fullscreen to
the photo view; `focusedPhotoIndex` is untouched. -/
def hideFullscreenPhoto (s : AppState) : AppState :=
  { s with currentView := .photos }

/-- `handleBack` (main.js lines 104-112): video stops and returns to the
dashboard; photos returns to the dashboard; fullscreen returns to photos;
dashboard is a no-op. -/
def handleBack (s : AppState) : AppState × List Effect :=
  match s.currentView with
  | .video => stopVideo s
  | .photos => (hidePhotoGallery s, [])
  | .fullscreen => (hideFullscreenPhoto s, [])
  | .dashboard => (s, [])

/-- LEFT-arrow branch of the keydown handler (main.js lines 345-350):
decrements the focus in the photo view when it is positive. -/
def keyLeft (s : AppState) : AppState :=
  if s.currentView = .photos ∧ 0 < s.focusedPhotoIndex then
    { s with focusedPhotoIndex := s.focusedPhotoIndex - 1 }
  else s

/-- RIGHT-arrow branch of the keydown handler (main.js lines 352-357):
increments the focus in the photo view while it is below `photos.length - 1`.
In JavaScript an empty gallery makes the bound `-1` and the guard false; with
truncated subtraction the bound is `0` and the guard is likewise false. -/
def keyRight (s : AppState) : AppState :=
  if s.currentView = .photos ∧ s.focusedPhotoIndex < s.photos.length - 1 then
    { s with focusedPhotoIndex := s.focusedPhotoIndex + 1 }
  else s

/-- Outcome of a fetch as observed by the awaiting handler: the fetch promise
rejects (network error), resolves with `response.ok` false (non-2xx), resolves
2xx but `response.json()` rejects (non-JSON body, e.g. the tunnel's HTML
interstitial), or resolves with a parsed value. -/
inductive FetchOutcome (α : Type)
  | networkError
  | notOk
  | badJson
  | ok (val : α)
deriving DecidableEq, Repr

/-- Result of a `loadPhotos()` completion: the state after resumption, whether
`showNewPhotoIndicator()` ran, and whether `console.error` ran. -/
structure LoadResult where
  state : AppState
  indicatorShown : Bool
  logged : Bool
deriving DecidableEq, Repr

/-- Completion of `loadPhotos` (main.js lines 150-173) on the observed
response.  A rejected fetch or a rejected `response.json()` lands in the
`catch` and is logged; a non-2xx response skips the `if (response.ok)` body
silently.  On success the indicator is shown iff `data.length >
lastPhotoCount`, then `lastPhotoCount` and `photos` are replaced. -/
def loadPhotos (resp : FetchOutcome (List Photo)) (s : AppState) : LoadResult :=
  match resp with
  | .networkError => ⟨s, false, true⟩
  | .notOk => ⟨s, false, false⟩
  | .badJson => ⟨s, false, true⟩
  | .ok data =>
      ⟨{ s with lastPhotoCount := data.length, photos := data },
       decide (data.length > s.lastPhotoCount), false⟩

/-- Result of one poll-tick completion: the state after resumption, whether
this tick called `loadPhotos()`, and whether `console.error` ran. -/
structure PollResult where
  state : AppState
  triggersLoad : Bool
  logged : Bool
deriving DecidableEq, Repr

/-- Completion of one tick body of `startPolling` (main.js lines 298-321) on
the observed `GET /api/state` response.  Failures mirror `loadPhotos`: thrown
errors are caught and logged, non-2xx is silently skipped.  On success: if
`total_count > lastPhotoCount` and the photo view is active, it calls
`loadPhotos()` (without touching the count itself); else if `total_count >
lastPhotoCount` it records the new count; otherwise nothing. -/
def pollTick (resp : FetchOutcome Nat) (s : AppState) : PollResult :=
  match resp with
  | .networkError => ⟨s, false, true⟩
  | .notOk => ⟨s, false, false⟩
  | .badJson => ⟨s, false, true⟩
  | .ok total =>
      if total > s.lastPhotoCount ∧ s.currentView = .photos then ⟨s, true, false⟩
      else if total > s.lastPhotoCount then
        ⟨{ s with lastPhotoCount := total }, false, false⟩
      else ⟨s, false, false⟩

/-- A failed fetch outcome: any of the three non-success cases. -/
abbrev FetchOutcome.isFailure {α : Type} (r : FetchOutcome α) : Prop :=
  r = .networkError ∨ r = .notOk ∨ r = .badJson

/-- The time label computed per photo in `renderPhotoGrid` (main.js lines
206-215), as a function of the age `timeAgo` in seconds.  The source computes
the age as `Date.now() / 1000 - photo.created_at`; for a whole number of
seconds `Math.floor` of the quotient is natural-number division. -/
def timeStr (timeAgo : Nat) : String :=
  if timeAgo < 60 then "Just now"
  else if timeAgo < 3600 then toString (timeAgo / 60) ++ "m ago"
  else if timeAgo < 86400 then toString (timeAgo / 3600) ++ "h ago"
  else toString (timeAgo / 86400) ++ "d ago"

/-- The new-photo highlight test in `renderPhotoGrid` (main.js lines 193-194):
a photo is new iff its age is under 3600 seconds. -/
def isNew (timeAgo : Nat) : Bool :=
  timeAgo < 3600

/-- The abstract key commands dispatched by the keydown handler
(main.js lines 324-359). -/
inductive Key
  | up
  | down
  | enter
  | back
  | left
  | right
deriving DecidableEq, Repr

/-- One dispatch of the keydown handler (main.js lines 324-359): each key code
invokes the corresponding handler; LEFT and RIGHT mutate only the focus. -/
def applyKey (s : AppState) : Key → AppState × List Effect
  | .up => navigateUp s
  | .down => navigateDown s
  | .enter => handleEnter s
  | .back => handleBack s
  | .left => (keyLeft s, [])
  | .right => (keyRight s, [])

/-- Folding a sequence of key dispatches over the state. -/
def runKeys (s : AppState) (ks : List Key) : AppState :=
  ks.foldl (fun t k => (applyKey t k).1) s

/-- The two scene-navigation commands: `moveNext` is the DOWN branch
(`navigateDown`), `movePrevious` the UP branch (`navigateUp`). -/
inductive NavCmd
  | next
  | prev
deriving DecidableEq, Repr

/-- Applying one navigation command to the state. -/
def applyNav (s : AppState) : NavCmd → AppState
  | .next => (navigateDown s).1
  | .prev => (navigateUp s).1

/-- Folding a sequence of navigation commands over the state. -/
def runNav (s : AppState) (cs : List NavCmd) : AppState :=
  cs.foldl applyNav s

/-- One gallery-store event: the completion of a poll tick or of a
`loadPhotos()` refresh, with the response it observed. -/
inductive GalleryOp
  | poll (resp : FetchOutcome Nat)
  | refresh (resp : FetchOutcome (List Photo))
deriving DecidableEq, Repr

/-- Applying one gallery-store event to the state. -/
def applyGalleryOp (s : AppState) (op : GalleryOp) : AppState :=
  match op with
  | .poll r => (pollTick r s).state
  | .refresh r => (loadPhotos r s).state

/-- The backend count a successful gallery event observed: the `total_count`
of a poll, the array length of a refresh, nothing for a failure. -/
def observedCount : GalleryOp → Option Nat
  | .poll (.ok total) => some total
  | .refresh (.ok data) => some data.length
  | _ => none

/-- The backend counts observed by the successful events of a sequence, in
order. -/
def observedCounts (ops : List GalleryOp) : List Nat :=
  ops.filterMap observedCount

/-- The successive values of `lastPhotoCount` along a sequence of gallery
events, starting with the current one. -/
def countTrace (s : AppState) : List GalleryOp → List Nat
  | [] => [s.lastPhotoCount]
  | op :: tl => s.lastPhotoCount :: countTrace (applyGalleryOp s op) tl

/-- The polling period passed to `setInterval` (main.js line 320). -/
def pollPeriodMs : Nat := 2000

/-- Start time of the k-th poll tick.  `startPolling` (main.js lines 298-321)
registers its async callback with `setInterval(..., 2000)`: the callback is
invoked at every multiple of the period whether or not an earlier
invocation's awaited fetch has settled, and the callback body begins with an
unconditional `fetch` — there is no in-flight guard — so tick k starts its
fetch at time `2000 * k`. -/
def tickStart (k : Nat) : Nat := pollPeriodMs * k

/-- Given the duration `dur k` of tick k's fetch, that fetch is in flight at
time t iff t lies in the half-open interval from its start to its settling. -/
def tickFetchInFlight (dur : Nat → Nat) (k t : Nat) : Prop :=
  tickStart k ≤ t ∧ t < tickStart k + dur k

/-- Fetch durations for the pipelining counterexample: every fetch takes
3000 ms, longer than one 2000 ms period. -/
def slowDur : Nat → Nat := fun _ => 3000

/-- A photo collection of a given size, for concrete scenarios. -/
def mkPhotos (n : Nat) : List Photo :=
  (List.range n).map fun i => ⟨"p" ++ toString i ++ ".jpg", none, 0⟩

/-- Scenario start for the poll-then-refresh scenario: dashboard view, five
photos loaded, `lastPhotoCount = 5`. -/
def c1Start : AppState :=
  { currentScene := .SmartBrick1
    currentView := .dashboard
    photos := mkPhotos 5
    lastPhotoCount := 5
    focusedPhotoIndex := 0
    sceneIndex := 0 }

/-- Scenario state after a poll tick observes `total_count = 7` on the
dashboard. -/
def c1AfterPoll : AppState := (pollTick (.ok 7) c1Start).state

/-- Scenario step: the user enters the Photos view, which triggers the
refresh. -/
def c1Entered : AppState × List Effect := showPhotoGallery c1AfterPoll

/-- Scenario end: the triggered refresh completes with the 7-element
collection. -/
def c1Refreshed : LoadResult := loadPhotos (.ok (mkPhotos 7)) c1Entered.1

/-- A dashboard state sitting on the scene just before `MyPhotos` in the
traversal order (`Game`, index 6). -/
def c2State : AppState :=
  { currentScene := .Game
    currentView := .dashboard
    photos := []
    lastPhotoCount := 0
    focusedPhotoIndex := 0
    sceneIndex := 6 }

/-- The view/index invariant maintained by scene navigation: the index is a
valid position in the traversal order and the view is dashboard or photos. -/
abbrev navInv (s : AppState) : Prop :=
  s.sceneIndex < sceneOrder.length ∧
    (s.currentView = .dashboard ∨ s.currentView = .photos)

/-- The focus invariant: on an empty gallery the focus is 0, on a non-empty
one it is a valid index. -/
abbrev focusInv (s : AppState) : Prop :=
  (s.photos = [] → s.focusedPhotoIndex = 0) ∧
    (s.photos ≠ [] → s.focusedPhotoIndex < s.photos.length)

/-- A dashboard state on the `City` scene (which has a video). -/
def cityState : AppState :=
  { currentScene := .City
    currentView := .dashboard
    photos := []
    lastPhotoCount := 0
    focusedPhotoIndex := 0
    sceneIndex := 2 }

/-- A photo-view state with five photos loaded. -/
def photosState : AppState :=
  { currentScene := .MyPhotos
    currentView := .photos
    photos := mkPhotos 5
    lastPhotoCount := 5
    focusedPhotoIndex := 0
    sceneIndex := 7 }

/-- A photo-view state with an empty gallery. -/
def emptyPhotosState : AppState :=
  { currentScene := .MyPhotos
    currentView := .photos
    photos := []
    lastPhotoCount := 0
    focusedPhotoIndex := 0
    sceneIndex := 7 }

/-- A sample photo. -/
def photo0 : Photo := ⟨"p0.jpg", none, 0⟩

/-- A concrete gallery-event sequence against an append-only backend: a poll
sees 3, a refresh fetches 4 photos, a later poll still sees 4. -/
def c6Ops : List GalleryOp :=
  [.poll (.ok 3), .refresh (.ok (mkPhotos 4)), .poll (.ok 4)]

/-- C1: the claimed scenario is false on the code.  From
`lastKnownTotalCount = 5`, `photos.length = 5`, a dashboard poll observing
`total_count = 7` raises the count to 7 with photos unchanged, but the
refresh triggered on entering the Photos view then compares the fetched
length 7 against the already-raised count 7, so `showNewPhotoIndicator` does
NOT run — the claim says the indicator is set. -/
theorem C1_counterexample :
    c1Start.lastPhotoCount = 5 ∧ c1Start.photos.length = 5 ∧
    c1AfterPoll.lastPhotoCount = 7 ∧ c1AfterPoll.photos.length = 5 ∧
    c1Refreshed.state.photos.length = 7 ∧
    c1Refreshed.indicatorShown = false := by
  decide

/-- C1 (amended): in the scenario the poll raises `lastKnownTotalCount` to 7
leaving `photos` unchanged and triggering no load; entering the Photos view
triggers the refresh, which replaces `photos` with the 7-element collection
and keeps `lastKnownTotalCount = 7`, but the new-photo indicator is not
shown, because the poll already raised the count the refresh compares
against. -/
theorem C1_poll_then_refresh_amended :
    c1AfterPoll.lastPhotoCount = 7 ∧
    c1AfterPoll.photos = c1Start.photos ∧
    (pollTick (.ok 7) c1Start).triggersLoad = false ∧
    Effect.fetchPhotos ∈ c1Entered.2 ∧
    c1Refreshed.state.photos.length = 7 ∧
    c1Refreshed.state.lastPhotoCount = 7 ∧
    c1Refreshed.indicatorShown = false := by
  decide

/-- C2: the claim is false on the code.  From the dashboard on scene index 6
(`Game`), `moveNext` (`navigateDown`) lands on the `MyPhotos` scene, and
`updateScene` then calls `showPhotoGallery`, which changes `currentView` to
the Photos view. -/
theorem C2_counterexample :
    c2State.currentView = .dashboard ∧
    (navigateDown c2State).1.currentView ≠ .dashboard := by
  decide

/-- C2 (amended): from a Dashboard state, `moveNext`/`movePrevious` leave
`currentView = Dashboard` — changing only the scene index and current scene —
except when the advance lands on the gallery scene `MyPhotos`, in which case
`currentView` becomes Photos. -/
theorem C2_dashboard_nav_amended (s : AppState) (h : s.currentView = .dashboard) :
    (sceneOrder.getD ((s.sceneIndex + 1) % sceneOrder.length) .SmartBrick1 ≠ .MyPhotos →
      (navigateDown s).1.currentView = .dashboard ∧
      (navigateDown s).1.sceneIndex = (s.sceneIndex + 1) % sceneOrder.length ∧
      (navigateDown s).1.photos = s.photos ∧
      (navigateDown s).1.focusedPhotoIndex = s.focusedPhotoIndex ∧
      (navigateDown s).1.lastPhotoCount = s.lastPhotoCount) ∧
    (sceneOrder.getD ((s.sceneIndex + 1) % sceneOrder.length) .SmartBrick1 = .MyPhotos →
      (navigateDown s).1.currentView = .photos) ∧
    (sceneOrder.getD ((s.sceneIndex + sceneOrder.length - 1) % sceneOrder.length)
        .SmartBrick1 ≠ .MyPhotos →
      (navigateUp s).1.currentView = .dashboard) ∧
    (sceneOrder.getD ((s.sceneIndex + sceneOrder.length - 1) % sceneOrder.length)
        .SmartBrick1 = .MyPhotos →
      (navigateUp s).1.currentView = .photos) := by
  refine ⟨fun hm => ?_, fun hm => ?_, fun hm => ?_, fun hm => ?_⟩ <;>
  · simp only [List.getD_eq_getElem?_getD] at hm
    simp [navigateDown, navigateUp, updateScene, showPhotoGallery, hidePhotoGallery, h, hm]

/-- Closed instance of the amended C2 statement at the `Game` scene. -/
theorem C2_dashboard_nav_amended_witness :
    (navigateDown c2State).1.currentView = .photos ∧
      (navigateUp c2State).1.currentView = .dashboard :=
  ⟨(C2_dashboard_nav_amended c2State rfl).2.1 (by decide),
   (C2_dashboard_nav_amended c2State rfl).2.2.1 (by decide)⟩

/-- C3: the claim is false on the code.  With every fetch lasting 3000 ms,
the fetch started by tick 0 is still in flight when tick 1 starts at
2000 ms, and tick 1's fetch starts anyway: two fetches are concurrently in
flight — ticks pipeline. -/
theorem C3_counterexample :
    tickFetchInFlight slowDur 0 (tickStart 1) ∧
      tickFetchInFlight slowDur 1 (tickStart 1) := by
  norm_num [tickFetchInFlight, tickStart, pollPeriodMs, slowDur]

/-- C3 (amended): `setInterval` invokes the poll callback every 2000 ms
regardless of in-flight fetches and the callback starts a fetch
unconditionally, so whenever a tick's fetch outlasts the period, that fetch
and the next tick's fetch are simultaneously in flight. -/
theorem C3_pipelining_amended (dur : Nat → Nat) (k : Nat) (h : pollPeriodMs < dur k)
    (hpos : 0 < dur (k + 1)) :
    tickFetchInFlight dur k (tickStart (k + 1)) ∧
      tickFetchInFlight dur (k + 1) (tickStart (k + 1)) := by
  simp only [tickFetchInFlight, tickStart, pollPeriodMs] at h hpos ⊢
  omega

/-- Closed instance of the amended C3 statement with 3000 ms fetches. -/
theorem C3_pipelining_amended_witness :
    (pollPeriodMs < slowDur 0 ∧ 0 < slowDur 1) ∧
      (tickFetchInFlight slowDur 0 (tickStart 1) ∧
        tickFetchInFlight slowDur 1 (tickStart 1)) :=
  ⟨⟨by norm_num [pollPeriodMs, slowDur], by norm_num [slowDur]⟩,
   C3_pipelining_amended slowDur 0 (by norm_num [pollPeriodMs, slowDur])
     (by norm_num [slowDur])⟩

/-- C7: the claim is false on the code.  A non-2xx response does leave the
state unchanged, but it is NOT logged: `loadPhotos` only logs exceptions
caught in its `catch`, and a response with `response.ok` false is skipped
silently. -/
theorem C7_counterexample :
    (loadPhotos .notOk c1Start).state = c1Start ∧
      (loadPhotos .notOk c1Start).logged = false := by
  decide

/-- C7 (amended): every failed fetch — network error, non-2xx, or non-JSON
body — leaves `photos` and `lastKnownTotalCount` unchanged in both
`refresh()` (`loadPhotos`) and `poll()` (the tick body), and never surfaces
as a hard error; network errors and JSON-parse failures are logged, but
non-2xx responses are silently ignored without logging. -/
theorem C7_failure_amended (s : AppState) :
    (∀ r : FetchOutcome (List Photo), r.isFailure →
        (loadPhotos r s).state = s ∧ (loadPhotos r s).indicatorShown = false) ∧
    (∀ r : FetchOutcome Nat, r.isFailure →
        (pollTick r s).state = s ∧ (pollTick r s).triggersLoad = false) ∧
    (loadPhotos .networkError s).logged = true ∧
    (loadPhotos .badJson s).logged = true ∧
    (loadPhotos .notOk s).logged = false ∧
    (pollTick .networkError s).logged = true ∧
    (pollTick .badJson s).logged = true ∧
    (pollTick .notOk s).logged = false := by
  refine ⟨?_, ?_, rfl, rfl, rfl, rfl, rfl, rfl⟩ <;>
    rintro r (rfl | rfl | rfl) <;> simp [loadPhotos, pollTick]

/-- Closed instance of the amended C7 statement on a non-JSON response. -/
theorem C7_failure_amended_witness :
    (FetchOutcome.badJson : FetchOutcome (List Photo)).isFailure ∧
      ((loadPhotos .badJson c1Start).state = c1Start ∧
        (loadPhotos .badJson c1Start).indicatorShown = false) :=
  ⟨Or.inr (Or.inr rfl), (C7_failure_amended c1Start).1 .badJson (Or.inr (Or.inr rfl))⟩

/-- C9: the age label is a pure function of the age in seconds: under 60 it
is "Just now", under 3600 it is the floored minute count suffixed "m ago",
under 86400 the floored hour count suffixed "h ago", otherwise the floored
day count suffixed "d ago"; and a photo gets the NEW badge iff its age is
strictly under 3600 seconds. -/
theorem C9_age_label (a : Nat) :
    (a < 60 → timeStr a = "Just now") ∧
    (60 ≤ a → a < 3600 → timeStr a = toString (a / 60) ++ "m ago") ∧
    (3600 ≤ a → a < 86400 → timeStr a = toString (a / 3600) ++ "h ago") ∧
    (86400 ≤ a → timeStr a = toString (a / 86400) ++ "d ago") ∧
    (isNew a = true ↔ a < 3600) := by
  refine ⟨fun h => ?_, fun h1 h2 => ?_, fun h1 h2 => ?_, fun h1 => ?_, ?_⟩
  · rw [timeStr, if_pos h]
  · rw [timeStr, if_neg (by omega), if_pos h2]
  · rw [timeStr, if_neg (by omega), if_neg (by omega), if_pos h2]
  · rw [timeStr, if_neg (by omega), if_neg (by omega), if_neg (by omega)]
  · simp [isNew]

/-- Closed instances of C9 on one age from each band. -/
theorem C9_age_label_witness :
    timeStr 30 = "Just now" ∧
    timeStr 120 = toString (120 / 60) ++ "m ago" ∧
    timeStr 7200 = toString (7200 / 3600) ++ "h ago" ∧
    timeStr 172800 = toString (172800 / 86400) ++ "d ago" ∧
    (isNew 30 = true ↔ (30 : Nat) < 3600) :=
  ⟨(C9_age_label 30).1 (by decide),
   (C9_age_label 120).2.1 (by decide) (by decide),
   (C9_age_label 7200).2.2.1 (by decide) (by decide),
   (C9_age_label 172800).2.2.2.1 (by decide),
   (C9_age_label 30).2.2.2.2⟩

/-- One `navigateDown` from a navigable state advances the index by one
circularly and keeps the view in the navigable set. -/
theorem navigateDown_step (s : AppState) (h : navInv s) :
    (navigateDown s).1.sceneIndex = (s.sceneIndex + 1) % sceneOrder.length ∧
      navInv (navigateDown s).1 := by
  obtain ⟨hi, hv⟩ := h
  have hm : ∀ n : Nat, n % sceneOrder.length < sceneOrder.length :=
    fun n => Nat.mod_lt _ (by decide)
  rcases hv with hv | hv <;>
    simp [navigateDown, updateScene, showPhotoGallery, hidePhotoGallery, hv] <;>
    split <;> exact ⟨rfl, hm _, by simp⟩

/-- One `navigateUp` from a navigable state retreats the index by one
circularly and keeps the view in the navigable set. -/
theorem navigateUp_step (s : AppState) (h : navInv s) :
    (navigateUp s).1.sceneIndex =
        (s.sceneIndex + sceneOrder.length - 1) % sceneOrder.length ∧
      navInv (navigateUp s).1 := by
  obtain ⟨hi, hv⟩ := h
  have hm : ∀ n : Nat, n % sceneOrder.length < sceneOrder.length :=
    fun n => Nat.mod_lt _ (by decide)
  rcases hv with hv | hv <;>
    simp [navigateUp, updateScene, showPhotoGallery, hidePhotoGallery, hv] <;>
    split <;> exact ⟨rfl, hm _, by simp⟩

/-- Each navigation command preserves the navigation invariant. -/
theorem applyNav_navInv (s : AppState) (h : navInv s) (c : NavCmd) :
    navInv (applyNav s c) := by
  cases c
  · exact (navigateDown_step s h).2
  · exact (navigateUp_step s h).2

/-- Any navigation-command sequence preserves the navigation invariant. -/
theorem runNav_navInv (cs : List NavCmd) (s : AppState) (h : navInv s) :
    navInv (runNav s cs) := by
  induction cs generalizing s with
  | nil => exact h
  | cons c tl ih => exact ih _ (applyNav_navInv s h c)

/-- Running m `moveNext` commands adds m to the scene index modulo the
traversal length. -/
theorem runNav_replicate_next (m : Nat) (s : AppState) (h : navInv s) :
    (runNav s (List.replicate m .next)).sceneIndex =
      (s.sceneIndex + m) % sceneOrder.length := by
  induction m generalizing s with
  | zero =>
      show s.sceneIndex = _
      rw [Nat.add_zero, Nat.mod_eq_of_lt h.1]
  | succ m ih =>
      rw [List.replicate_succ]
      show (runNav (applyNav s .next) (List.replicate m .next)).sceneIndex = _
      rw [ih _ (applyNav_navInv s h .next)]
      have h1 : (applyNav s .next).sceneIndex =
          (s.sceneIndex + 1) % sceneOrder.length := (navigateDown_step s h).1
      rw [h1, Nat.mod_add_mod]
      congr 1
      omega

/-- C4: for every sequence of `moveNext`/`movePrevious` commands from the
initial Dashboard state, `sceneIndex` stays within the bounds of the
traversal order, and appending `sceneOrder.length` further `moveNext`
commands returns `sceneIndex` to the value it had — circular wraparound. -/
theorem C4_scene_index_wraps :
    (∀ cs : List NavCmd, (runNav initState cs).sceneIndex < sceneOrder.length) ∧
    (∀ cs : List NavCmd,
        (runNav initState (cs ++ List.replicate sceneOrder.length .next)).sceneIndex
          = (runNav initState cs).sceneIndex) := by
  have hinit : navInv initState := by decide
  constructor
  · intro cs
    exact (runNav_navInv cs initState hinit).1
  · intro cs
    have h := runNav_navInv cs initState hinit
    have happ : runNav initState (cs ++ List.replicate sceneOrder.length .next)
        = runNav (runNav initState cs) (List.replicate sceneOrder.length .next) := by
      unfold runNav
      exact List.foldl_append ..
    rw [happ, runNav_replicate_next _ _ h, Nat.add_mod_right, Nat.mod_eq_of_lt h.1]

/-- C5: `dismiss` (`handleBack`) exactly inverts every view-entry transition:
Video returns to Dashboard emitting the stop-video effect, Fullscreen returns
to Photos, Photos returns to Dashboard, Dashboard is a no-op; hence
Dashboard→Video→dismiss lands in Dashboard and
Photos→Fullscreen→dismiss→dismiss lands in Dashboard via Photos. -/
theorem C5_dismiss_inverse (s : AppState) :
    (s.currentView = .video →
        (handleBack s).1.currentView = .dashboard ∧ (handleBack s).2 = [.stopVideo]) ∧
    (s.currentView = .fullscreen →
        (handleBack s).1.currentView = .photos ∧ (handleBack s).2 = []) ∧
    (s.currentView = .photos →
        (handleBack s).1.currentView = .dashboard ∧ (handleBack s).2 = []) ∧
    (s.currentView = .dashboard → handleBack s = (s, [])) ∧
    (∀ v, s.currentView = .dashboard → (sceneAssets s.currentScene).video = some v →
        (handleEnter s).1.currentView = .video ∧
        (handleBack (handleEnter s).1).1.currentView = .dashboard ∧
        Effect.stopVideo ∈ (handleBack (handleEnter s).1).2) ∧
    (∀ p : Photo, s.currentView = .photos →
        (showFullscreenPhoto (some p) s).1.currentView = .fullscreen ∧
        (handleBack (showFullscreenPhoto (some p) s).1).1.currentView = .photos ∧
        (handleBack (handleBack (showFullscreenPhoto (some p) s).1).1).1.currentView
          = .dashboard) := by
  refine ⟨fun h => ?_, fun h => ?_, fun h => ?_, fun h => ?_, fun v h hv => ?_,
    fun p h => ?_⟩
  · simp [handleBack, stopVideo, h]
  · simp [handleBack, hideFullscreenPhoto, h]
  · simp [handleBack, hidePhotoGallery, h]
  · simp [handleBack, h]
  · simp [handleBack, handleEnter, playVideo, stopVideo, h, hv]
  · simp [handleBack, showFullscreenPhoto, hideFullscreenPhoto, hidePhotoGallery, h]

/-- Closed instances of C5: enter and dismiss the City video, and the
fullscreen round trip from the photo view. -/
theorem C5_dismiss_inverse_witness :
    ((handleEnter cityState).1.currentView = .video ∧
      (handleBack (handleEnter cityState).1).1.currentView = .dashboard ∧
      Effect.stopVideo ∈ (handleBack (handleEnter cityState).1).2) ∧
    ((showFullscreenPhoto (some photo0) photosState).1.currentView = .fullscreen ∧
      (handleBack (showFullscreenPhoto (some photo0) photosState).1).1.currentView
        = .photos ∧
      (handleBack
          (handleBack (showFullscreenPhoto (some photo0) photosState).1).1).1.currentView
        = .dashboard) :=
  ⟨(C5_dismiss_inverse cityState).2.2.2.2.1 "assets/city.mp4" rfl rfl,
   (C5_dismiss_inverse photosState).2.2.2.2.2 photo0 rfl⟩

/-- C8: the focus invariant — `focusedPhotoIndex` is 0 on an empty gallery
and a valid index on a non-empty one — is preserved by the LEFT/RIGHT focus
moves, by entering the gallery, and by any refresh that does not shrink the
collection; on an empty gallery both moves are no-ops, and at either boundary
the outward move is a no-op. -/
theorem C8_focus_bounds (s : AppState) (hinv : focusInv s) :
    focusInv (keyLeft s) ∧ focusInv (keyRight s) ∧
    focusInv (showPhotoGallery s).1 ∧
    (∀ data : List Photo, s.photos.length ≤ data.length →
        focusInv (loadPhotos (.ok data) s).state) ∧
    (s.photos = [] → keyLeft s = s ∧ keyRight s = s) ∧
    (s.focusedPhotoIndex = 0 → keyLeft s = s) ∧
    (s.focusedPhotoIndex = s.photos.length - 1 → keyRight s = s) := by
  obtain ⟨h0, h1⟩ := hinv
  refine ⟨?_, ?_, ?_, ?_, fun he => ⟨?_, ?_⟩, fun hb => ?_, fun hb => ?_⟩
  · unfold keyLeft
    split
    · next hc =>
        refine ⟨fun he => ?_, fun hne => ?_⟩
        · have := h0 he
          omega
        · have := h1 hne
          simp only
          omega
    · exact ⟨h0, h1⟩
  · unfold keyRight
    split
    · next hc =>
        refine ⟨fun he => ?_, fun hne => ?_⟩
        · rw [he] at hc
          simp at hc
        · have hpos := List.length_pos.mpr hne
          simp only
          omega
    · exact ⟨h0, h1⟩
  · exact ⟨fun _ => rfl, fun hne => List.length_pos.mpr hne⟩
  · intro data hlen
    show (data = [] → s.focusedPhotoIndex = 0) ∧
      (data ≠ [] → s.focusedPhotoIndex < data.length)
    refine ⟨fun hd => ?_, fun hd => ?_⟩
    · have hsp : s.photos = [] := by
        rw [← List.length_eq_zero]
        rw [hd] at hlen
        simpa using hlen
      exact h0 hsp
    · by_cases hsp : s.photos = []
      · rw [h0 hsp]
        exact List.length_pos.mpr hd
      · have := h1 hsp
        omega
  · unfold keyLeft
    rw [if_neg]
    rintro ⟨-, hp⟩
    have := h0 he
    omega
  · unfold keyRight
    rw [if_neg]
    rintro ⟨-, hp⟩
    rw [he] at hp
    simp at hp
  · unfold keyLeft
    rw [if_neg]
    rintro ⟨-, hp⟩
    omega
  · unfold keyRight
    rw [if_neg]
    rintro ⟨-, hp⟩
    omega

/-- Closed instance of C8 on the empty gallery: the focus is 0 and both moves
are no-ops. -/
theorem C8_focus_bounds_witness :
    focusInv emptyPhotosState ∧
      (keyLeft emptyPhotosState = emptyPhotosState ∧
        keyRight emptyPhotosState = emptyPhotosState) :=
  ⟨by decide, (C8_focus_bounds emptyPhotosState (by decide)).2.2.2.2.1 rfl⟩

/-- One gallery event either leaves `lastPhotoCount` unchanged or installs
exactly the count it observed. -/
theorem applyGalleryOp_count_cases (s : AppState) (op : GalleryOp) :
    (applyGalleryOp s op).lastPhotoCount = s.lastPhotoCount ∨
      observedCount op = some (applyGalleryOp s op).lastPhotoCount := by
  cases op with
  | poll r =>
      cases r with
      | ok total =>
          by_cases hc1 : total > s.lastPhotoCount ∧ s.currentView = .photos
          · left
            show (pollTick (.ok total) s).state.lastPhotoCount = s.lastPhotoCount
            simp [pollTick, hc1]
          · by_cases hc2 : total > s.lastPhotoCount
            · right
              have hnv : ¬ s.currentView = .photos := fun hp => hc1 ⟨hc2, hp⟩
              show _ = some (pollTick (.ok total) s).state.lastPhotoCount
              simp [pollTick, observedCount, hc2, hnv]
            · left
              show (pollTick (.ok total) s).state.lastPhotoCount = s.lastPhotoCount
              simp [pollTick, hc1, hc2]
      | networkError => exact Or.inl rfl
      | notOk => exact Or.inl rfl
      | badJson => exact Or.inl rfl
  | refresh r =>
      cases r with
      | ok data => exact Or.inr rfl
      | networkError => exact Or.inl rfl
      | notOk => exact Or.inl rfl
      | badJson => exact Or.inl rfl

/-- A gallery event never lowers `lastPhotoCount` below its current value,
provided any count it observes is at least the current value. -/
theorem applyGalleryOp_mono (s : AppState) (op : GalleryOp)
    (h : ∀ c, observedCount op = some c → s.lastPhotoCount ≤ c) :
    s.lastPhotoCount ≤ (applyGalleryOp s op).lastPhotoCount := by
  cases op with
  | poll r =>
      cases r with
      | ok total =>
          show s.lastPhotoCount ≤ (pollTick (.ok total) s).state.lastPhotoCount
          by_cases hc1 : total > s.lastPhotoCount ∧ s.currentView = .photos
          · simp [pollTick, hc1]
          · by_cases hc2 : total > s.lastPhotoCount
            · have hnv : ¬ s.currentView = .photos := fun hp => hc1 ⟨hc2, hp⟩
              simpa [pollTick, hc2, hnv] using Nat.le_of_lt hc2
            · simp [pollTick, hc1, hc2]
      | networkError => exact Nat.le_refl _
      | notOk => exact Nat.le_refl _
      | badJson => exact Nat.le_refl _
  | refresh r =>
      cases r with
      | ok data => exact h _ rfl
      | networkError => exact Nat.le_refl _
      | notOk => exact Nat.le_refl _
      | badJson => exact Nat.le_refl _

/-- The count trace always starts with the current `lastPhotoCount`. -/
theorem countTrace_head (s : AppState) (ops : List GalleryOp) :
    (countTrace s ops).head? = some s.lastPhotoCount := by
  cases ops <;> rfl

/-- C6: against a backend whose photo count never decreases — so the counts
observed by successive successful polls and refreshes are non-decreasing and
at least the current `lastPhotoCount` — the value of `lastPhotoCount` is
monotonically non-decreasing along every sequence of poll and refresh
completions: no successful poll or refresh ever assigns a smaller value. -/
theorem C6_count_monotone (ops : List GalleryOp) (s : AppState)
    (hs : List.Sorted (· ≤ ·) (observedCounts ops))
    (hle : ∀ c ∈ observedCounts ops, s.lastPhotoCount ≤ c) :
    List.Chain' (· ≤ ·) (countTrace s ops) := by
  induction ops generalizing s with
  | nil => simp [countTrace]
  | cons op tl ih =>
      have hmem : ∀ c, observedCount op = some c → s.lastPhotoCount ≤ c := fun c hc =>
        hle c (List.mem_filterMap.mpr ⟨op, List.mem_cons_self op tl, hc⟩)
      have hsorted_tl : List.Sorted (· ≤ ·) (observedCounts tl) := by
        rcases hco : observedCount op with _ | c0
        · have he : observedCounts (op :: tl) = observedCounts tl := by
            simp [observedCounts, List.filterMap_cons, hco]
          rwa [he] at hs
        · have he : observedCounts (op :: tl) = c0 :: observedCounts tl := by
            simp [observedCounts, List.filterMap_cons, hco]
          rw [he] at hs
          exact (List.sorted_cons.mp hs).2
      have hle_tl : ∀ c ∈ observedCounts tl,
          (applyGalleryOp s op).lastPhotoCount ≤ c := by
        intro c hc
        rcases applyGalleryOp_count_cases s op with heq | hobs
        · rw [heq]
          rcases hco : observedCount op with _ | c0
          · refine hle c ?_
            have he : observedCounts (op :: tl) = observedCounts tl := by
              simp [observedCounts, List.filterMap_cons, hco]
            rw [he]
            exact hc
          · refine hle c ?_
            have he : observedCounts (op :: tl) = c0 :: observedCounts tl := by
              simp [observedCounts, List.filterMap_cons, hco]
            rw [he]
            exact List.mem_cons_of_mem _ hc
        · have he : observedCounts (op :: tl)
              = (applyGalleryOp s op).lastPhotoCount :: observedCounts tl := by
            simp [observedCounts, List.filterMap_cons, hobs]
          rw [he] at hs
          exact (List.sorted_cons.mp hs).1 c hc
      rw [countTrace, List.chain'_cons']
      refine ⟨?_, ih _ hsorted_tl hle_tl⟩
      intro y hy
      rw [countTrace_head, Option.mem_some_iff] at hy
      rw [← hy]
      exact applyGalleryOp_mono s op hmem

/-- Closed instance of C6 on a concrete append-only event sequence. -/
theorem C6_count_monotone_witness :
    (List.Sorted (· ≤ ·) (observedCounts c6Ops) ∧
      ∀ c ∈ observedCounts c6Ops, initState.lastPhotoCount ≤ c) ∧
    List.Chain' (· ≤ ·) (countTrace initState c6Ops) :=
  ⟨⟨by decide, by decide⟩,
   C6_count_monotone c6Ops initState (by decide) (by decide)⟩

/-- Any key dispatch leaves the view in one of photos, dashboard, video, or
whatever it already was. -/
theorem view_after_key (s : AppState) (k : Key) :
    (applyKey s k).1.currentView = .photos ∨
    (applyKey s k).1.currentView = .dashboard ∨
    (applyKey s k).1.currentView = .video ∨
    (applyKey s k).1.currentView = s.currentView := by
  cases k <;>
    simp only [applyKey, navigateUp, navigateDown, handleEnter, handleBack, keyLeft,
      keyRight, playVideo, stopVideo, updateScene, showPhotoGallery, hidePhotoGallery,
      hideFullscreenPhoto] <;>
    repeat' first | split | simp

/-- The fullscreen view is unreachable through the keydown handler: no key
dispatch moves a non-fullscreen state into fullscreen. -/
theorem applyKey_no_fullscreen (s : AppState) (k : Key)
    (h : s.currentView ≠ .fullscreen) :
    (applyKey s k).1.currentView ≠ .fullscreen := by
  rcases view_after_key s k with hv | hv | hv | hv <;> rw [hv] <;> simp_all

/-- No key-dispatch sequence from a non-fullscreen state reaches fullscreen. -/
theorem runKeys_no_fullscreen (ks : List Key) (s : AppState)
    (h : s.currentView ≠ .fullscreen) :
    (runKeys s ks).currentView ≠ .fullscreen := by
  induction ks generalizing s with
  | nil => exact h
  | cons k tl ih => exact ih _ (applyKey_no_fullscreen s k h)

/-- C10: the fullscreen view is unreachable from the initial state through
the keydown handler, and every key dispatch that enters the Photos view from
outside it — `activate` on the gallery scene or scene navigation landing on
it — resets `focusedPhotoIndex` to 0 and triggers a gallery refresh, so a
previously focused position is never preserved across re-entry. -/
theorem C10_photos_entry :
    (∀ ks : List Key, (runKeys initState ks).currentView ≠ .fullscreen) ∧
    (∀ (s : AppState) (k : Key),
        s.currentView ≠ .fullscreen → s.currentView ≠ .photos →
        (applyKey s k).1.currentView = .photos →
        (applyKey s k).1.focusedPhotoIndex = 0 ∧
          Effect.fetchPhotos ∈ (applyKey s k).2) := by
  constructor
  · intro ks
    exact runKeys_no_fullscreen ks initState (by decide)
  · intro s k h1 h2 h3
    cases hv : s.currentView with
    | photos => exact absurd hv h2
    | fullscreen => exact absurd hv h1
    | dashboard =>
        cases k <;>
          simp only [applyKey, navigateUp, navigateDown, handleEnter, handleBack, keyLeft,
            keyRight, playVideo, stopVideo, updateScene, showPhotoGallery,
            hidePhotoGallery, hideFullscreenPhoto, hv] at h3 ⊢ <;>
          repeat' first | simp_all | split at h3
    | video =>
        cases k <;>
          simp only [applyKey, navigateUp, navigateDown, handleEnter, handleBack, keyLeft,
            keyRight, playVideo, stopVideo, updateScene, showPhotoGallery,
            hidePhotoGallery, hideFullscreenPhoto, hv] at h3 ⊢ <;>
          simp_all

/-- Closed instance of C10: pressing DOWN on the `Game` scene lands on the
gallery scene, entering Photos with the focus reset and a refresh effect. -/
theorem C10_photos_entry_witness :
    (applyKey c2State .down).1.focusedPhotoIndex = 0 ∧
      Effect.fetchPhotos ∈ (applyKey c2State .down).2 :=
  C10_photos_entry.2 c2State .down (by decide) (by decide) (by decide)

end LegoWorld
